import Mathlib

/-!
Shallow embedding of the go-sauce SAUCE decoder (src/sauce.go) and the
renderer fragments of `Dump` that the specification talks about.

A file is a list of bytes (`List Nat`, values < 256 where it matters).
`Parse` models `sauce.Parse`: it works on the byte contents of the file;
the OS-level open/stat/seek/read failure paths are not modelled (reading
the last 128 bytes of a list of length at least 129 always yields exactly
128 bytes, so the "Short read" branch is unreachable in the model).
The Go return type `(*SAUCE, error)` is modelled by `ParseResult`, which
keeps a constructor for the `(nil, nil)` combination so that the
"absent, non-error" outcome is expressible.
-/

namespace Sauce

/-- `SAUCEID = [5]byte{'S','A','U','C','E'}` from src/sauce.go. -/
def sauceID : List Nat := [83, 65, 85, 67, 69]

/-- `SAUCEVersion = [2]byte{0, 0}` from src/sauce.go. -/
def sauceVersion : Nat × Nat := (0, 0)

/-- The `SAUCE` record struct of src/sauce.go.  Text fields are kept as the
trimmed byte sequences (the Go code converts bytes to a string byte-for-byte);
the `Date` field is kept as the (year, month, day) triple handed to
`time.Date` (calendar normalisation performed by `time.Date` is not needed by
any claim). -/
structure SAUCE where
  id : List Nat
  version : Nat × Nat
  title : List Nat
  author : List Nat
  group : List Nat
  date : Int × Int × Int
  fileSize : Nat
  dataType : Nat
  fileType : Nat
  ti0 : Nat
  ti1 : Nat
  ti2 : Nat
  ti3 : Nat
  comments : Nat
  tflags : Nat
  tinfos : List Nat
deriving DecidableEq

/-- `New` from src/sauce.go: an empty record with only `ID` and `Version`
set; all other Go fields keep their zero values (empty strings, zero
integers, zero byte arrays; the zero `time.Time` is January 1 of year 1). -/
def New : SAUCE :=
  { id := sauceID
    version := sauceVersion
    title := []
    author := []
    group := []
    date := (1, 1, 1)
    fileSize := 0
    dataType := 0
    fileType := 0
    ti0 := 0
    ti1 := 0
    ti2 := 0
    ti3 := 0
    comments := 0
    tflags := 0
    tinfos := List.replicate 22 0 }

/-- ASCII whitespace trimmed by `strings.TrimSpace` on byte content:
tab, newline, vertical tab, form feed, carriage return, space.
(The two multi-byte Unicode spaces TrimSpace also knows, U+0085 and U+00A0,
only arise from multi-byte UTF-8 sequences and are not modelled; SAUCE text
fields are single-byte extended ASCII.) -/
def isSpaceByte (c : Nat) : Bool :=
  c == 9 || c == 10 || c == 11 || c == 12 || c == 13 || c == 32

/-- `strings.TrimSpace`: drop whitespace from both ends. -/
def trimSpace (l : List Nat) : List Nat :=
  ((l.dropWhile isSpaceByte).reverse.dropWhile isSpaceByte).reverse

/-- ASCII decimal digit. -/
def isDigit (c : Nat) : Bool := decide (48 ≤ c ∧ c ≤ 57)

/-- Value of a digit string. -/
def digitsVal (l : List Nat) : Nat := l.foldl (fun a c => a * 10 + (c - 48)) 0

/-- `strconv.Atoi` on short strings: an optional sign followed by at least
one digit, all characters digits; anything else is a syntax error (`none`).
The inputs here are at most 4 characters, so the int64 range check of the
real Atoi can never fire. -/
def atoi (s : List Nat) : Option Int :=
  match s with
  | 43 :: rest =>
      if rest ≠ [] ∧ rest.all isDigit then some (digitsVal rest) else none
  | 45 :: rest =>
      if rest ≠ [] ∧ rest.all isDigit then some (-(digitsVal rest : Int)) else none
  | _ =>
      if s ≠ [] ∧ s.all isDigit then some (digitsVal s) else none

/-- `y, _ := strconv.Atoi(...)`: on error Atoi returns 0 and the error is
discarded. -/
def atoiOrZero (s : List Nat) : Int := (atoi s).getD 0

/-- `parseDate` from src/sauce.go: the 8-character date string is split as
`s[:4]`, `s[4:6]`, `s[6:8]` and each part parsed with Atoi, errors ignored. -/
def parseDate (s : List Nat) : Int × Int × Int :=
  (atoiOrZero (s.take 4),
   atoiOrZero ((s.drop 4).take 2),
   atoiOrZero ((s.drop 6).take 2))

/-- Go slice `t[i:j]`. -/
def field (t : List Nat) (i j : Nat) : List Nat := (t.drop i).take (j - i)

/-- Indexing `t[i]` (all indices used are in range for a 128-byte trailer). -/
def byteAt (t : List Nat) (i : Nat) : Nat := t.getD i 0

/-- `binary.LittleEndian.Uint16`. -/
def le16 (b0 b1 : Nat) : Nat := b0 + 256 * b1

/-- `binary.LittleEndian.Uint32`. -/
def le32 (b0 b1 b2 b3 : Nat) : Nat :=
  b0 + 256 * b1 + 65536 * b2 + 16777216 * b3

/-- The errors `Parse` can construct (`errors.New(...)` in src/sauce.go). -/
inductive ParseError where
  | fileTooShort
  | shortRead
  | noSauceRecord
deriving DecidableEq

/-- The Go return type `(*SAUCE, error)`: a record with nil error, the
`(nil, nil)` combination (record absent, no error), or a nil record with an
error. -/
inductive ParseResult where
  | ok (r : SAUCE)
  | absent
  | err (e : ParseError)
deriving DecidableEq

/-- The last 128 bytes of the file (`f.Seek(-128, 2)` then a full read). -/
def trailer (b : List Nat) : List Nat := b.drop (b.length - 128)

/-- Lines 187-200 of src/sauce.go: populate the record from the trailer
bytes.  `Version`, `Comments`, `TFlags` and `TInfos` are never assigned and
keep the values given by `New`. -/
def decodeTrailer (t : List Nat) : SAUCE :=
  { New with
    title := trimSpace (field t 7 41)
    author := trimSpace (field t 41 61)
    group := trimSpace (field t 61 81)
    date := parseDate (field t 82 90)
    fileSize := le32 (byteAt t 91) (byteAt t 92) (byteAt t 93) (byteAt t 94)
    dataType := byteAt t 94
    fileType := byteAt t 95
    ti0 := le16 (byteAt t 96) (byteAt t 97)
    ti1 := le16 (byteAt t 98) (byteAt t 99)
    ti2 := le16 (byteAt t 100) (byteAt t 101)
    ti3 := le16 (byteAt t 102) (byteAt t 103) }

/-- `Parse` from src/sauce.go on the byte contents of the file.  Sizes below
129 are rejected; then the last 128 bytes are read (always exactly 128 in
the model, so the "Short read" error is unreachable); a signature mismatch
yields the error "No SAUCE record" (note: an error, not `absent`); otherwise
the record is decoded.  The `log.Printf` of the date field is a side effect
with no bearing on the result. -/
def Parse (b : List Nat) : ParseResult :=
  if b.length < 129 then ParseResult.err ParseError.fileTooShort
  else if (trailer b).take 5 ≠ sauceID then ParseResult.err ParseError.noSauceRecord
  else ParseResult.ok (decodeTrailer (trailer b))

/-- Projection used to state counterexamples about the decoded record. -/
def resultRecord : ParseResult → Option SAUCE
  | ParseResult.ok r => some r
  | _ => none

/-- `SAUCEDataType` map of src/sauce.go. -/
def dataTypeName : Nat → Option String
  | 0 => some "None"
  | 1 => some "Character"
  | 2 => some "Bitmap"
  | 3 => some "Vector"
  | 4 => some "Audio"
  | 5 => some "BinaryText"
  | 6 => some "XBin"
  | 7 => some "Archive"
  | 8 => some "Executable"
  | _ => none

/-- `SAUCEFileType[DATA_TYPE_CHARACTER]` of src/sauce.go. -/
def characterFileTypes : Nat → Option String
  | 0 => some "ASCII"
  | 1 => some "ANSi"
  | 2 => some "ANSiMation"
  | 3 => some "RIP script"
  | 4 => some "PCBoard"
  | 5 => some "Avatar"
  | 6 => some "HTML"
  | 7 => some "Source"
  | 8 => some "Tundradraw"
  | _ => none

/-- `SAUCEFileType[DATA_TYPE_BITMAP]` of src/sauce.go. -/
def bitmapFileTypes : Nat → Option String
  | 0 => some "GIF"
  | 1 => some "PCX"
  | 2 => some "LBM/FF"
  | 3 => some "TGA"
  | 4 => some "FLI"
  | 5 => some "FLC"
  | 6 => some "BMP"
  | 7 => some "GL"
  | 8 => some "DL"
  | 9 => some "WPG"
  | 10 => some "PNG"
  | 11 => some "JPG"
  | 12 => some "MPG"
  | 13 => some "AVI"
  | _ => none

/-- `SAUCEFileType[DATA_TYPE_VECTOR]` of src/sauce.go. -/
def vectorFileTypes : Nat → Option String
  | 0 => some "DXF"
  | 1 => some "DWG"
  | 2 => some "WPG"
  | 3 => some "3DS"
  | _ => none

/-- `SAUCEFileType[DATA_TYPE_AUDIO]` of src/sauce.go. -/
def audioFileTypes : Nat → Option String
  | 0 => some "MOD"
  | 1 => some "669"
  | 2 => some "STM"
  | 3 => some "S3M"
  | 4 => some "MTM"
  | 5 => some "FAR"
  | 6 => some "ULT"
  | 7 => some "AMF"
  | 8 => some "DMF"
  | 9 => some "OKT"
  | 10 => some "ROL"
  | 11 => some "CMF"
  | 12 => some "MID"
  | 13 => some "SADT"
  | 14 => some "VOC"
  | 15 => some "WAV"
  | 16 => some "SMP8"
  | 17 => some "SMP8S"
  | 18 => some "SMP16"
  | 19 => some "SMP16S"
  | 20 => some "PATCH8"
  | 21 => some "PATCH16"
  | 22 => some "XM"
  | 23 => some "HSC"
  | 24 => some "IT"
  | _ => none

/-- `SAUCEFileType[DATA_TYPE_ARCHIVE]` of src/sauce.go. -/
def archiveFileTypes : Nat → Option String
  | 0 => some "ZIP"
  | 1 => some "ARJ"
  | 2 => some "LZH"
  | 3 => some "ARC"
  | 4 => some "TAR"
  | 5 => some "ZOO"
  | 6 => some "RAR"
  | 7 => some "UC2"
  | 8 => some "PAK"
  | 9 => some "SQZ"
  | _ => none

/-- The outer `SAUCEFileType` map: which data types have a file-type table.
Keys present: Character (1), Bitmap (2), Vector (3), Audio (4), Archive (7). -/
def fileTypeTable (dt : Nat) : Option (Nat → Option String) :=
  if dt = 1 then some characterFileTypes
  else if dt = 2 then some bitmapFileTypes
  else if dt = 3 then some vectorFileTypes
  else if dt = 4 then some audioFileTypes
  else if dt = 7 then some archiveFileTypes
  else none

/-- File-type name lookup conditioned on the data type
(`SAUCEFileType[dataType][fileType]`, as an Option). -/
def fileTypeName (dt ft : Nat) : Option String :=
  (fileTypeTable dt).bind (fun tbl => tbl ft)

/-- `FileTypeString` of src/sauce.go: a double Go map lookup, yielding the
empty string when either key is missing. -/
def fileTypeString (r : SAUCE) : String :=
  (fileTypeName r.dataType r.fileType).getD ""

/-- The "filetype:" line printed by `Dump` (src/sauce.go lines 220-224):
with a registered table the name is printed in parentheses, otherwise only
the numeric code. -/
def fileTypeLine (r : SAUCE) : String :=
  match fileTypeTable r.dataType with
  | some _ => "filetype: " ++ toString r.fileType ++ " (" ++ fileTypeString r ++ ")"
  | none => "filetype: " ++ toString r.fileType

/-- Printf format "size....: %d x %d characters". -/
def charSizeStr (w h : Nat) : String :=
  "size....: " ++ toString w ++ " x " ++ toString h ++ " characters"

/-- Printf format "size....: %d x %d pixels". -/
def pixelSizeStr (w h : Nat) : String :=
  "size....: " ++ toString w ++ " x " ++ toString h ++ " pixels"

/-- The optional "size....:" line printed by `Dump` (src/sauce.go lines
226-241): Character data with file type 0,1,2,4,5,8 prints characters with
a zero width replaced by 80; Character file type 3 and all Bitmap data print
pixels; every other combination prints nothing. -/
def sizeLine (r : SAUCE) : Option String :=
  if r.dataType = 1 then
    if r.fileType = 0 ∨ r.fileType = 1 ∨ r.fileType = 2 ∨ r.fileType = 4 ∨
        r.fileType = 5 ∨ r.fileType = 8 then
      some (charSizeStr (if r.ti0 = 0 then 80 else r.ti0) r.ti1)
    else if r.fileType = 3 then
      some (pixelSizeStr r.ti0 r.ti1)
    else none
  else if r.dataType = 2 then
    some (pixelSizeStr r.ti0 r.ti1)
  else none

/-- Title as the specification describes it: trimmed from a 35-byte field
starting at trailer offset 7 (the canonical SAUCE layout).  Stated from the
spec so that it can be compared with what `Parse` actually does. -/
def titleSpec35 (t : List Nat) : List Nat := trimSpace ((t.drop 7).take 35)

/-- A 129-byte file of zero bytes: long enough, signature absent. -/
def c1buf : List Nat := List.replicate 129 0

/-- A 129-byte file: valid signature, data type Character (1), file type
ANSi (1), TInfo0 = 0, TInfo1 = 24. -/
def c2buf : List Nat :=
  0 :: (sauceID ++ List.replicate 89 32 ++ [1, 1, 0, 0, 24, 0] ++ List.replicate 28 0)

/-- The record decoded from `c2buf`. -/
def c2rec : SAUCE := decodeTrailer (trailer c2buf)

/-- A 129-byte file: valid signature, version bytes (trailer offsets 5, 6)
holding ASCII "00" = (48, 48). -/
def c3buf : List Nat := 0 :: (sauceID ++ [48, 48] ++ List.replicate 121 0)

/-- The record decoded from `c3buf`. -/
def c3rec : SAUCE := decodeTrailer (trailer c3buf)

/-- A 129-byte file: valid signature, comment count 7 at trailer offset 104,
flags 9 at offset 105, reserved bytes 106..127 all ones. -/
def c4buf : List Nat :=
  0 :: (sauceID ++ List.replicate 99 0 ++ [7, 9] ++ List.replicate 22 1)

/-- The record decoded from `c4buf`. -/
def c4rec : SAUCE := decodeTrailer (trailer c4buf)

/-- A 129-byte file: valid signature, data type Character (1), file type
RIP script (3), TInfo0 = 320, TInfo1 = 200. -/
def c5buf : List Nat :=
  0 :: (sauceID ++ List.replicate 89 32 ++ [1, 3, 64, 1, 200, 0] ++ List.replicate 28 0)

/-- The record decoded from `c5buf`. -/
def c5rec : SAUCE := decodeTrailer (trailer c5buf)

/-- A 129-byte file with a valid signature and otherwise zero bytes. -/
def c6buf : List Nat := 0 :: (sauceID ++ List.replicate 123 0)

/-- A 129-byte file: valid signature, date field (trailer offsets 82..89)
filled with eight ASCII 'X' characters, so all three Atoi calls fail. -/
def c7buf : List Nat :=
  0 :: (sauceID ++ List.replicate 77 32 ++ List.replicate 8 88 ++ List.replicate 38 0)

/-- The record decoded from `c7buf`. -/
def c7rec : SAUCE := decodeTrailer (trailer c7buf)

/-- A 129-byte file: valid signature, trailer offsets 7..40 (34 bytes) all
spaces, offset 41 an ASCII 'X' (88), offsets 42..60 spaces. -/
def c8buf : List Nat :=
  0 :: (sauceID ++ [48, 48] ++ List.replicate 34 32 ++ [88] ++
    List.replicate 19 32 ++ List.replicate 67 0)

/-- The record decoded from `c8buf`. -/
def c8rec : SAUCE := decodeTrailer (trailer c8buf)

/-- A record with data type BinaryText (5) and file type 2. -/
def c9rec : SAUCE := { New with dataType := 5, fileType := 2 }

/-- A 129-byte file: valid signature, trailer bytes 91..94 = [5, 0, 0, 2],
so FileSize = 5 + 2 * 2^24 and DataType = 2. -/
def c10buf : List Nat :=
  0 :: (sauceID ++ List.replicate 86 32 ++ [5, 0, 0, 2, 0] ++ List.replicate 32 0)

/-- The record decoded from `c10buf`. -/
def c10rec : SAUCE := decodeTrailer (trailer c10buf)

/-- Success characterisation of `Parse`: it returns a record exactly when
the file has at least 129 bytes and the trailer starts with the signature,
and the record is the one decoded from the trailer. -/
theorem Parse_ok_iff (b : List Nat) (r : SAUCE) :
    Parse b = ParseResult.ok r ↔
      129 ≤ b.length ∧ (trailer b).take 5 = sauceID ∧ r = decodeTrailer (trailer b) := by
  unfold Parse
  by_cases h1 : b.length < 129
  · simp [h1]
  · by_cases h2 : (trailer b).take 5 = sauceID
    · simp [h1, h2, Nat.not_lt.mp h1, eq_comm]
    · simp [h1, h2]

/-- Every entry of a list of bytes below 256 is read back below 256
(the default 0 included). -/
theorem getD_lt_of_all (l : List Nat) (hl : ∀ x ∈ l, x < 256) (i : Nat) :
    l.getD i 0 < 256 := by
  induction l generalizing i with
  | nil => simp [List.getD]
  | cons a t ih =>
    cases i with
    | zero => simpa using hl a (by simp)
    | succ n => simpa using ih (fun x hx => hl x (by simp [hx])) n

set_option maxRecDepth 400000

/-- C1: the code path for a long-enough file whose trailer lacks the SAUCE
signature.  On the 129 zero bytes of `c1buf`, `Parse` returns the error
"No SAUCE record" and not the non-error absent outcome the specification
describes (the `r == nil` branch of src/sauce-dump/main.go is unreachable). -/
theorem parse_bad_signature_is_error :
    Parse c1buf = ParseResult.err ParseError.noSauceRecord ∧
    Parse c1buf ≠ ParseResult.absent := by decide

/-- C2: for a decoded record with data type Character (1) and file type in
0, 1, 2, 4, 5, 8, the size line shows ti0 x ti1 characters, with a zero ti0
displayed as 80 and ti1 displayed unchanged. -/
theorem character_size_line (b : List Nat) (r : SAUCE)
    (_h : Parse b = ParseResult.ok r) (hdt : r.dataType = 1)
    (hft : r.fileType = 0 ∨ r.fileType = 1 ∨ r.fileType = 2 ∨ r.fileType = 4 ∨
      r.fileType = 5 ∨ r.fileType = 8) :
    (r.ti0 = 0 → sizeLine r = some (charSizeStr 80 r.ti1)) ∧
    (r.ti0 ≠ 0 → sizeLine r = some (charSizeStr r.ti0 r.ti1)) := by
  have hline : sizeLine r = some (charSizeStr (if r.ti0 = 0 then 80 else r.ti0) r.ti1) := by
    unfold sizeLine
    rw [if_pos hdt, if_pos hft]
  constructor <;> intro h0 <;> rw [hline] <;> simp [h0]

/-- C2 witness: `c2buf` decodes to a Character/ANSi record with ti0 = 0 and
ti1 = 24, and its size line reads "size....: 80 x 24 characters". -/
theorem character_size_line_witness :
    sizeLine c2rec = some "size....: 80 x 24 characters" := by
  have h := character_size_line c2buf c2rec (by decide) (by decide) (by decide)
  exact (h.1 (by decide)).trans (by decide)

/-- C3 counterexample: `c3buf` carries the bytes (48, 48) at trailer
offsets 5 and 6, yet the decoded record's version is (0, 0): the version
field is not taken from the trailer. -/
theorem version_not_copied_cex :
    (resultRecord (Parse c3buf)).map SAUCE.version = some (0, 0) ∧
    ((trailer c3buf).getD 5 0, (trailer c3buf).getD 6 0) = (48, 48) := by decide

/-- C3 amended: every successfully decoded record has version (0, 0), the
constant installed by `New`; the trailer bytes at offsets 5 and 6 are never
read. -/
theorem version_always_zero (b : List Nat) (r : SAUCE)
    (h : Parse b = ParseResult.ok r) : r.version = (0, 0) := by
  obtain ⟨-, -, rfl⟩ := (Parse_ok_iff b r).mp h
  rfl

/-- C3 witness: the record decoded from `c3buf` has version (0, 0). -/
theorem version_always_zero_witness : c3rec.version = (0, 0) :=
  version_always_zero c3buf c3rec (by decide)

/-- C4 counterexample: `c4buf` has comment count 7 at trailer offset 104,
flags 9 at 105 and ones in the 22 reserved bytes 106..127, yet the decoded
record keeps the zero values for all three fields. -/
theorem reserved_not_copied_cex :
    (resultRecord (Parse c4buf)).map (fun r => (r.comments, r.tflags, r.tinfos)) =
      some (0, 0, List.replicate 22 0) ∧
    ((trailer c4buf).getD 104 0, (trailer c4buf).getD 105 0,
      field (trailer c4buf) 106 128) = (7, 9, List.replicate 22 1) := by decide

/-- C4 amended: the decoder never reads the comment count, flags or
reserved bytes; every successfully decoded record carries the constructor's
zero values for them, regardless of the trailer's contents. -/
theorem reserved_fields_zero (b : List Nat) (r : SAUCE)
    (h : Parse b = ParseResult.ok r) :
    r.comments = 0 ∧ r.tflags = 0 ∧ r.tinfos = List.replicate 22 0 := by
  obtain ⟨-, -, rfl⟩ := (Parse_ok_iff b r).mp h
  exact ⟨rfl, rfl, rfl⟩

/-- C4 witness: the record decoded from `c4buf` has zero comment count,
zero flags and 22 zero reserved bytes. -/
theorem reserved_fields_zero_witness :
    c4rec.comments = 0 ∧ c4rec.tflags = 0 ∧ c4rec.tinfos = List.replicate 22 0 :=
  reserved_fields_zero c4buf c4rec (by decide)

/-- C5: for a decoded record with data type Character (1) and file type
RIP script (3), the size line shows ti0 x ti1 pixels, with ti0 displayed
unchanged even when zero. -/
theorem rip_size_line (b : List Nat) (r : SAUCE)
    (_h : Parse b = ParseResult.ok r) (hdt : r.dataType = 1)
    (hft : r.fileType = 3) :
    sizeLine r = some (pixelSizeStr r.ti0 r.ti1) := by
  simp [sizeLine, hdt, hft]

/-- C5 witness: `c5buf` decodes to a Character/RIP record with
ti0 = 320 and ti1 = 200, and its size line reads
"size....: 320 x 200 pixels". -/
theorem rip_size_line_witness :
    sizeLine c5rec = some "size....: 320 x 200 pixels" := by
  have h := rip_size_line c5buf c5rec (by decide) (by decide) (by decide)
  exact h.trans (by decide)

/-- C6: `Parse` returns the "File too short" error exactly when the file
has fewer than 129 bytes, and a 129-byte file whose trailer starts with the
signature decodes successfully. -/
theorem too_short_boundary (b : List Nat) :
    (Parse b = ParseResult.err ParseError.fileTooShort ↔ b.length < 129) ∧
    (b.length = 129 → (trailer b).take 5 = sauceID →
      Parse b = ParseResult.ok (decodeTrailer (trailer b))) := by
  constructor
  · unfold Parse
    by_cases h1 : b.length < 129
    · simp [h1]
    · by_cases h2 : (trailer b).take 5 = sauceID <;> simp [h1, h2]
  · intro h1 h2
    exact (Parse_ok_iff _ _).mpr ⟨by omega, h2, rfl⟩

/-- C6 witness: `c6buf` has exactly 129 bytes, a valid signature, and
decodes successfully; shorter prefixes are covered by the iff at work on
any list. -/
theorem too_short_boundary_witness :
    Parse c6buf = ParseResult.ok (decodeTrailer (trailer c6buf)) :=
  (too_short_boundary c6buf).2 (by decide) (by decide)

/-- C7: decoding succeeds whenever the length and signature checks pass, no
matter what the date bytes hold; the date is parsed from trailer bytes
82..89 split 4/2/2, and any sub-field whose Atoi fails contributes a zero
to the resulting date. -/
theorem date_zero_default (b : List Nat) (h1 : 129 ≤ b.length)
    (h2 : (trailer b).take 5 = sauceID) :
    ∃ r, Parse b = ParseResult.ok r ∧
      r.date = parseDate (field (trailer b) 82 90) ∧
      (atoi ((field (trailer b) 82 90).take 4) = none → r.date.1 = 0) ∧
      (atoi (((field (trailer b) 82 90).drop 4).take 2) = none → r.date.2.1 = 0) ∧
      (atoi (((field (trailer b) 82 90).drop 6).take 2) = none → r.date.2.2 = 0) := by
  refine ⟨decodeTrailer (trailer b), (Parse_ok_iff _ _).mpr ⟨h1, h2, rfl⟩, rfl, ?_, ?_, ?_⟩ <;>
    intro hn <;>
    simp [decodeTrailer, parseDate, atoiOrZero, hn]

/-- C7 witness: `c7buf` has all eight date characters equal to ASCII 'X';
it decodes successfully and the decoded date is (0, 0, 0). -/
theorem date_zero_default_witness : c7rec.date.1 = 0 := by
  obtain ⟨r, hok, -, hy, -, -⟩ := date_zero_default c7buf (by decide) (by decide)
  have hc : Parse c7buf = ParseResult.ok c7rec := by decide
  have hr : r = c7rec := by
    have heq : ParseResult.ok r = ParseResult.ok c7rec := hok.symm.trans hc
    injection heq
  exact hr ▸ hy (by decide)

/-- C8 counterexample: in `c8buf` the 34 bytes at trailer offsets 7..40 are
spaces and offset 41 holds an ASCII 'X'; a 35-byte title field would yield
the title "X", but the decoder yields the empty title — and the 'X' shows
up at the head of the author field instead. -/
theorem title_width_cex :
    (resultRecord (Parse c8buf)).map SAUCE.title = some [] ∧
    titleSpec35 (trailer c8buf) = [88] ∧
    (resultRecord (Parse c8buf)).map SAUCE.author = some [88] := by decide

/-- C8 amended: the title is derived from the 34-byte field at trailer
offsets 7..40 (not 35 bytes), the author and group from the 20-byte fields
at 41..60 and 61..80, each trimmed of leading and trailing ASCII
whitespace. -/
theorem text_fields_trimmed (b : List Nat) (r : SAUCE)
    (h : Parse b = ParseResult.ok r) :
    r.title = trimSpace (field (trailer b) 7 41) ∧
    r.author = trimSpace (field (trailer b) 41 61) ∧
    r.group = trimSpace (field (trailer b) 61 81) := by
  obtain ⟨-, -, rfl⟩ := (Parse_ok_iff b r).mp h
  exact ⟨rfl, rfl, rfl⟩

/-- C8 witness: the record decoded from `c8buf` carries the trimmed 34-byte
title field. -/
theorem text_fields_trimmed_witness :
    c8rec.title = trimSpace (field (trailer c8buf) 7 41) :=
  (text_fields_trimmed c8buf c8rec (by decide)).1

/-- C9: the file-type name lookup succeeds only for data types 1, 2, 3, 4
and 7; data types 0, 5, 6 and 8 have no registered table and their
"filetype:" line shows just the numeric code. -/
theorem file_type_table_domain :
    (∀ dt ft : Nat, (fileTypeName dt ft).isSome = true →
      dt = 1 ∨ dt = 2 ∨ dt = 3 ∨ dt = 4 ∨ dt = 7) ∧
    (∀ r : SAUCE, r.dataType = 0 ∨ r.dataType = 5 ∨ r.dataType = 6 ∨ r.dataType = 8 →
      fileTypeTable r.dataType = none ∧
      fileTypeLine r = "filetype: " ++ toString r.fileType) := by
  constructor
  · intro dt ft h
    by_cases e1 : dt = 1
    · exact Or.inl e1
    by_cases e2 : dt = 2
    · exact Or.inr (Or.inl e2)
    by_cases e3 : dt = 3
    · exact Or.inr (Or.inr (Or.inl e3))
    by_cases e4 : dt = 4
    · exact Or.inr (Or.inr (Or.inr (Or.inl e4)))
    by_cases e7 : dt = 7
    · exact Or.inr (Or.inr (Or.inr (Or.inr e7)))
    exfalso
    simp [fileTypeName, fileTypeTable, e1, e2, e3, e4, e7] at h
  · intro r hr
    have hnone : fileTypeTable r.dataType = none := by
      rcases hr with h | h | h | h <;> simp [fileTypeTable, h]
    refine ⟨hnone, ?_⟩
    unfold fileTypeLine
    rw [hnone]

/-- C9 witness: data type 1 is in the table domain, and a BinaryText (5)
record with file type 2 renders "filetype: 2" with no name. -/
theorem file_type_table_domain_witness :
    (1 = 1 ∨ 1 = 2 ∨ 1 = 3 ∨ 1 = 4 ∨ 1 = 7) ∧ fileTypeLine c9rec = "filetype: 2" :=
  ⟨file_type_table_domain.1 1 0 (by decide),
   (file_type_table_domain.2 c9rec (by decide)).2.trans (by decide)⟩

/-- C10: in every successfully decoded record of a genuine byte file, the
data type equals the top byte of the file size, because the data type is
read from trailer offset 94, the same byte that serves as the most
significant byte of the little-endian file size at offsets 91..94. -/
theorem dataType_aliases_fileSize (b : List Nat) (r : SAUCE)
    (hb : ∀ x ∈ b, x < 256) (h : Parse b = ParseResult.ok r) :
    r.dataType = r.fileSize / 16777216 := by
  obtain ⟨-, -, rfl⟩ := (Parse_ok_iff b r).mp h
  have hB : ∀ i, byteAt (trailer b) i < 256 := fun i =>
    getD_lt_of_all (trailer b) (fun x hx => hb x (List.mem_of_mem_drop hx)) i
  show byteAt (trailer b) 94 =
    le32 (byteAt (trailer b) 91) (byteAt (trailer b) 92) (byteAt (trailer b) 93)
      (byteAt (trailer b) 94) / 16777216
  have h91 := hB 91
  have h92 := hB 92
  have h93 := hB 93
  unfold le32
  omega

/-- C10 witness: `c10buf` is a genuine byte file decoding to a record with
file size 5 + 2 * 2^24 and data type 2 = fileSize / 2^24. -/
theorem dataType_aliases_fileSize_witness :
    c10rec.dataType = c10rec.fileSize / 16777216 :=
  dataType_aliases_fileSize c10buf c10rec (by decide) (by decide)

end Sauce
